import Mathlib

/-!
Verification of the ArtNet consumer module (`src/modules/artnet/consumer/
artnet_consumer.cpp`) of caspar-server: a shallow embedding of its data
model, geometry compiler, channel encoder, universe packetizer, frame
mailbox, pacing loop and configuration parsing, together with theorems
settling the specification claims about them.

Machine integers are embedded as `Nat`/`Int`; `uint8_t` values are `Nat`
with explicit `< 256` bounds where they matter, and bit operations
(`&&& 255`, `>>> 8`) are the `Nat` counterparts of the C `& 0xff` and
`>> 8` on non-negative values.  The C `float` configuration fields
(x, y, width, height, rotation) are embedded as `Rat`; they are only
carried through to the external rectangle-subdivision utility, never
computed with.  Fallible construction code (which throws
`CASPAR_THROW_EXCEPTION`) is embedded as `Except String`.
-/

set_option maxRecDepth 4000

namespace Artnet

/-- Fixture color model, from `FixtureType` (declared in
`artnet/util/fixture_calculation.h`, which is not under `src/`). -/
inductive FixtureType where
  | DIMMER
  | RGB
  | RGBW
deriving DecidableEq, Inhabited

/-- Modelled from the spec: the numeric value of each `FixtureType` enum
constant, which the source uses as the type's intrinsic minimum channel
count (`if (fixtureChannels < f.type)` in `get_fixtures_ptree`); the enum
declaration lives in `fixture_calculation.h`, outside `src/`.  The spec
gives the minimum channel counts 1, 3, 4 for Dimmer, RGB, RGBW. -/
def minChannels : FixtureType → Nat
  | .DIMMER => 1
  | .RGB => 3
  | .RGBW => 4

/-- The `box` bounding-box record (from `fixture_calculation.h`); fields
`x, y, width, height, rotation` are C floats, embedded as `Rat`.  The core
never computes with them, it only passes them to `compute_rect`. -/
structure box where
  x : Rat
  y : Rat
  width : Rat
  height : Rat
  rotation : Rat
deriving DecidableEq, Inhabited

/-- Modelled from the spec: the sampling rectangle type returned by the
external subdivision utility `compute_rect` (declared in
`fixture_calculation.h`, outside `src/`).  The spec only requires the
rectangle to be "the instance's sub-region of the bounding box, produced
by the external subdivision utility given (box, instance_index,
instance_count)", i.e. a deterministic pure function of those three
arguments, so the rectangle is embedded as the free record of them. -/
structure rect where
  srcBox : box
  index : Nat
  count : Nat
deriving DecidableEq, Inhabited

/-- Modelled from the spec: the external subdivision utility
`compute_rect(box, instance_index, instance_count)`, embedded as the free
(injective, deterministic) function into `rect`. -/
def compute_rect (b : box) (i n : Nat) : rect := ⟨b, i, n⟩

/-- An average color, one `uint8_t` per channel (the `color` type of the
external color sampler). -/
structure color where
  r : Nat
  g : Nat
  b : Nat
deriving DecidableEq, Inhabited

/-- Modelled from the spec: a video frame handle, observable only through
the external `average_color(frame, rectangle)` sampler, so embedded as the
function from sampling rectangles to average colors. -/
def Frame : Type := rect → color

/-- Modelled from the spec: `average_color(frame, rectangle) -> Color`,
the external Color Sampler contract. -/
def average_color (f : Frame) (r : rect) : color := f r

/-- A validated fixture specification, from the `fixture` struct
(`fixture_calculation.h`); `startAddress` already holds the zero-based
address (`get_fixtures_ptree` stores `startAddress - 1`). -/
structure fixture where
  type : FixtureType
  startAddress : Nat
  fixtureCount : Nat
  fixtureChannels : Nat
  fixtureBox : box
deriving DecidableEq, Inhabited

/-- A validated sender specification, from the `sender` struct.  The
source field `universe` is a Lean keyword, hence `universeId` here. -/
structure sender where
  universeId : Nat
  host : String
  port : Nat
  fixtures : List fixture
deriving DecidableEq, Inhabited

/-- The `configuration` struct of `artnet_consumer.cpp`. -/
structure configuration where
  refreshRate : Int
  senders : List sender
deriving DecidableEq, Inhabited

/-- The `computed_fixture` struct: type, absolute zero-based channel
address, sampling rectangle. -/
structure computed_fixture where
  type : FixtureType
  address : Nat
  rectangle : rect
deriving DecidableEq, Inhabited

/-- A resolved UDP endpoint (`boost::asio::ip::udp::endpoint`), embedded
as the validated host string plus port. -/
structure endpoint where
  host : String
  port : Nat
deriving DecidableEq, Inhabited

/-- The `computed_sender` struct: resolved endpoint, universe number
(source field `universe`, a Lean keyword, hence `universeId`), flat list
of computed fixtures. -/
structure computed_sender where
  endpoint : endpoint
  universeId : Nat
  fixtures : List computed_fixture
deriving DecidableEq, Inhabited

/-- The inner loop of `compute_fixtures` (artnet_consumer.cpp:189-197):
one fixture specification expands to `fixtureCount` computed fixtures at
stride-spaced addresses. -/
def fixtureInstances (f : fixture) : List computed_fixture :=
  (List.range f.fixtureCount).map fun i =>
    { type := f.type
      address := f.startAddress + i * f.fixtureChannels
      rectangle := compute_rect f.fixtureBox i f.fixtureCount }

/-- `compute_fixtures` (artnet_consumer.cpp:186-201): concatenation of the
instance expansions of all of the sender's fixtures, in order.  (Source
line 200 reads `return compute_fixtures;`, naming the member function
itself, which is ill-typed C++; the accumulated local `computed_fixtures`
built by lines 189-198 is the only well-typed referent and is what this
embedding returns.) -/
def compute_fixtures (s : sender) : List computed_fixture :=
  s.fixtures.flatMap fixtureInstances

/-- `compute_senders` (artnet_consumer.cpp:203-217): resolve each sender's
host (`boost::asio::ip::address::from_string` throws on an unparseable
host string — resolution is embedded as the `resolve` predicate since the
address parser is an external library) and expand its fixtures.  Runs in
the `artnet_consumer` constructor. -/
def compute_senders (resolve : String → Bool) (ss : List sender) :
    Except String (List computed_sender) :=
  ss.mapM fun s =>
    if resolve s.host then
      Except.ok { endpoint := { host := s.host, port := s.port }
                  universeId := s.universeId
                  fixtures := compute_fixtures s }
    else Except.error "invalid address"

/-- The Dimmer channel value `(uint8_t)(0.279 * r + 0.547 * g + 0.106 * b)`
(artnet_consumer.cpp:166).  The C cast truncates the non-negative value
toward zero, i.e. takes its floor.  The source computes in IEEE double
arithmetic; it is embedded here in exact rational arithmetic (see the C8
analysis: the two differ on exactly three of the 256³ byte inputs). -/
def dimmer_byte (r g b : Nat) : Nat :=
  ⌊(0.279 * (r : ℚ) + 0.547 * (g : ℚ) + 0.106 * (b : ℚ))⌋₊

/-- The channel encoder: the `switch (computed_fixture.type)` of
`send_computed_sender` (artnet_consumer.cpp:164-180), as the list of bytes
written at the fixture's address.  RGBW arithmetic is `uint8_t`; since
`w = min(r, g, b)` never exceeds any channel, `Nat` subtraction agrees
with it on byte inputs. -/
def encode : FixtureType → color → List Nat
  | .DIMMER, c => [dimmer_byte c.r c.g c.b]
  | .RGB, c => [c.r, c.g, c.b]
  | .RGBW, c =>
    let w := min (min c.r c.g) c.b
    [c.r - w, c.g - w, c.b - w, w]

/-- Writing `bytes` into a byte buffer starting at `addr`
(`ptr[0] = ...; ptr[1] = ...;` with `ptr = dmx_data + address`).  The
buffer is embedded as a total function on `Nat` indices; an out-of-range
address (undefined behavior in the C source, see spec §9) leaves the
in-range bytes it does not cover untouched. -/
def writeBytes (buf : Nat → Nat) (addr : Nat) (bytes : List Nat) : Nat → Nat :=
  fun j => if addr ≤ j ∧ j - addr < bytes.length then bytes.getD (j - addr) 0 else buf j

/-- The `dmx_data` universe buffer of `send_computed_sender`
(artnet_consumer.cpp:157-181): zeroed by `memset(dmx_data, 0, 512)`, then
each computed fixture's encoded bytes are written at its address, in
order. -/
def universe_buffer (fixtures : List computed_fixture) (fr : Frame) : Nat → Nat :=
  fixtures.foldl
    (fun buf cf => writeBytes buf cf.address (encode cf.type (average_color fr cf.rectangle)))
    (fun _ => 0)

/-- The 512 bytes of the universe buffer, as a list. -/
def dmx_data (fixtures : List computed_fixture) (fr : Frame) : List Nat :=
  (List.range 512).map (universe_buffer fixtures fr)

/-- `send_dmx_data` (artnet_consumer.cpp:219-250): the 530-byte wire
packet, byte `i` being `header[i]` for `i < 18`, `data[i - 18]` for
`i - 18 < length`, and `0` otherwise — exactly the loop of lines
232-244.  `len` is the `length` argument (512 at the call site). -/
def send_dmx_data (uni : Nat) (data : List Nat) (len : Nat) : List Nat :=
  let hUni := (uni >>> 8) &&& 255
  let lUni := uni &&& 255
  let hLen := (len >>> 8) &&& 255
  let lLen := len &&& 255
  let header : List Nat :=
    [65, 114, 116, 45, 78, 101, 116, 0, 0, 80, 0, 14, 0, 0, lUni, hUni, hLen, lLen]
  (List.range (18 + 512)).map fun i =>
    if i < 18 then header.getD i 0
    else if i - 18 < len then data.getD (i - 18) 0
    else 0

/-- `send_computed_sender` (artnet_consumer.cpp:156-184), as the packet it
hands to the socket: the universe buffer is built and passed to
`send_dmx_data(sender, dmx_data, 512)`. -/
def send_computed_sender (s : computed_sender) (fr : Frame) : List Nat :=
  send_dmx_data s.universeId (dmx_data s.fixtures fr) 512

/-- The frame mailbox: the `last_frame_` slot guarded by `frame_mutex_`
(artnet_consumer.cpp:140-141).  `core::const_frame` default-constructs to
an empty handle (`if (!frame) continue`), so the slot is an `Option`. -/
def Mailbox : Type := Option Frame

/-- `send` (artnet_consumer.cpp:115-121): overwrite the slot with the new
frame and return `make_ready_future(true)`, embedded as the new mailbox
state paired with the future's resolved value. -/
def mailbox_send (fr : Frame) (_m : Mailbox) : Mailbox × Bool :=
  (some fr, true)

/-- A finite sequence of deliveries to the mailbox, in order. -/
def deliver_all (frames : List Frame) (m : Mailbox) : Mailbox :=
  frames.foldl (fun m fr => (mailbox_send fr m).1) m

/-- The pacing thread's read of the mailbox (artnet_consumer.cpp:93-96:
lock, copy `last_frame_`, unlock). -/
def mailbox_read (m : Mailbox) : Option Frame := m

/-- The per-iteration send pass `send_computed_senders`
(artnet_consumer.cpp:150-154) together with the transport
(`socket.send_to` + `CASPAR_THROW_EXCEPTION(io_error())` on failure,
lines 246-249).  `net e = true` means the datagram send to endpoint `e`
succeeds.  The result pairs the endpoints to which a send was attempted,
in order, with the outcome: the `for` loop attempts each sender in turn
and the first throwing send aborts the rest of the loop body. -/
def send_computed_senders (net : endpoint → Bool) :
    List computed_sender → List endpoint × Except String Unit
  | [] => ([], Except.ok ())
  | s :: rest =>
    if net s.endpoint then
      let r := send_computed_senders net rest
      (s.endpoint :: r.1, r.2)
    else ([s.endpoint], Except.error "io_error")

/-- The pacing loop body of the thread started at lines 76-105, from the
point where a frame is available: one `try { ... send_computed_senders
... } catch (...) { log }` iteration.  The catch swallows any exception,
so the iteration always completes and yields the endpoints attempted. -/
def loop_iteration (net : endpoint → Bool) (ss : List computed_sender) : List endpoint :=
  (send_computed_senders net ss).1

/-- `n` consecutive iterations of the `while (!abort_request_)` pacing
loop (each with a frame available): the catch at the iteration boundary
means every iteration runs regardless of earlier transport errors.
Real-time sleeping is not modelled. -/
def run_loop (net : endpoint → Bool) (ss : List computed_sender) : Nat → List (List endpoint)
  | 0 => []
  | n + 1 => loop_iteration net ss :: run_loop net ss n

/-- The raw `<fixture>` property subtree, as read by `get_fixtures_ptree`
(artnet_consumer.cpp:253-322): each recognized key is present or absent;
`ptree.get(key, default)` is `Option.getD`. -/
structure FixtureXml where
  startAddress : Option Int
  fixtureCount : Option Int
  type : Option String
  fixtureChannels : Option Int
  x : Option Rat
  y : Option Rat
  width : Option Rat
  height : Option Rat
  rotation : Option Rat
deriving DecidableEq, Inhabited

/-- The raw `<sender>` subtree read by `get_senders_ptree`
(artnet_consumer.cpp:324-342).  `universe`, `host` and `port` are read
with the `sender` struct's default-member values (declared in the header
outside `src/` and never validated), so the fields here hold the values
after defaulting. -/
structure SenderXml where
  universeId : Nat
  host : String
  port : Nat
  fixtures : List FixtureXml
deriving DecidableEq, Inhabited

/-- The consumer's configuration subtree, as read by
`create_preconfigured_consumer` (artnet_consumer.cpp:344-357). -/
structure ConfigXml where
  refreshRate : Option Int
  senders : List SenderXml
deriving DecidableEq, Inhabited

/-- `boost::iequals`: character-wise case-insensitive string equality
(ASCII folding suffices for the three fixture-type keywords). -/
def iequals (a b : String) : Bool :=
  a.data.map Char.toLower == b.data.map Char.toLower

/-- The fixture-type keyword chain of artnet_consumer.cpp:279-287. -/
def parseType (s : String) : Option FixtureType :=
  if iequals s "DIMMER" then some FixtureType.DIMMER
  else if iequals s "RGB" then some FixtureType.RGB
  else if iequals s "RGBW" then some FixtureType.RGBW
  else none

/-- The per-fixture body of `get_fixtures_ptree`
(artnet_consumer.cpp:261-318): validation and defaulting, in source
order. -/
def parseFixture (xf : FixtureXml) : Except String fixture :=
  let startAddress := xf.startAddress.getD 0
  if startAddress < 1 then Except.error "Fixture start address must be specified"
  else
    let fixtureCount := xf.fixtureCount.getD (-1)
    if fixtureCount < 1 then Except.error "Fixture count must be specified"
    else
      let ty := xf.type.getD ""
      if ty.isEmpty then Except.error "Fixture type must be specified"
      else
        match parseType ty with
        | none => Except.error "Unknown fixture type"
        | some t =>
          let fixtureChannels := xf.fixtureChannels.getD (-1)
          let fixtureChannels :=
            if fixtureChannels < 0 then (minChannels t : Int) else fixtureChannels
          if fixtureChannels < (minChannels t : Int) then
            Except.error
              "Fixture channel count must be at least enough channels for current color mode"
          else
            Except.ok
              { type := t
                startAddress := (startAddress - 1).toNat
                fixtureCount := fixtureCount.toNat
                fixtureChannels := fixtureChannels.toNat
                fixtureBox :=
                  { x := xf.x.getD 0, y := xf.y.getD 0, width := xf.width.getD 0
                    height := xf.height.getD 0, rotation := xf.rotation.getD 0 } }

/-- `get_fixtures_ptree` (artnet_consumer.cpp:253-322): parse each
`<fixture>` element in order; the first thrown error aborts the loop. -/
def get_fixtures_ptree (xs : List FixtureXml) : Except String (List fixture) :=
  xs.mapM parseFixture

/-- The per-sender body of `get_senders_ptree`
(artnet_consumer.cpp:330-338). -/
def parseSender (xs : SenderXml) : Except String sender :=
  (get_fixtures_ptree xs.fixtures).map fun fs =>
    { universeId := xs.universeId, host := xs.host, port := xs.port, fixtures := fs }

/-- `get_senders_ptree` (artnet_consumer.cpp:324-342). -/
def get_senders_ptree (xs : List SenderXml) : Except String (List sender) :=
  xs.mapM parseSender

/-- A fully constructed `artnet_consumer` (artnet_consumer.cpp:58-251):
its immutable configuration and the computed senders built by the
constructor. -/
structure consumer where
  config : configuration
  computed_senders : List computed_sender
deriving DecidableEq, Inhabited

/-- `create_preconfigured_consumer` (artnet_consumer.cpp:344-357) followed
by the `artnet_consumer` constructor (lines 66-72, which runs
`compute_senders`): the complete fallible construction.  The pacing
thread is only started later, by `initialize`, so no part of a failed
construction ever starts it. -/
def create_preconfigured_consumer (resolve : String → Bool) (tree : ConfigXml) :
    Except String consumer :=
  let refreshRate := tree.refreshRate.getD 10
  if refreshRate < 1 then Except.error "Refresh rate must be at least 1"
  else
    (get_senders_ptree tree.senders).bind fun ss =>
      (compute_senders resolve ss).map fun cs =>
        { config := { refreshRate := refreshRate, senders := ss }
          computed_senders := cs }

/-- `state()` (artnet_consumer.cpp:129-137): the diagnostics snapshot, as
the association list of monitor keys to the integers stored in them. -/
def state (c : consumer) : List (String × Int) :=
  [("artnet/computed-senders", (c.computed_senders.length : Int)),
   ("artnet/senders", (c.config.senders.length : Int)),
   ("artnet/refresh-rate", c.config.refreshRate)]

/-- The total number of computed fixtures of a consumer, across all of
its computed senders (the "computed-fixture count" of the spec's
`state()` description). -/
def total_computed_fixtures (c : consumer) : Nat :=
  (c.computed_senders.map fun s => s.fixtures.length).sum

/-- Following the words of the spec (claim C4), NOT the source: a fixture
entry is invalid when its start address is missing or `< 1`, its count is
missing or `< 1`, its type is missing or not one of the three
(case-insensitive) keywords, or its `fixture-channels` value is below the
type's minimum channel count.  Used to compare the spec's rejection
condition with the code's. -/
def spec_invalid_fixture (xf : FixtureXml) : Bool :=
  (match xf.startAddress with | none => true | some v => v < 1) ||
  (match xf.fixtureCount with | none => true | some v => v < 1) ||
  (match xf.type with | none => true | some s => (parseType s).isNone) ||
  (match xf.type, xf.fixtureChannels with
   | some s, some v =>
     match parseType s with
     | some t => v < (minChannels t : Int)
     | none => false
   | _, _ => false)

/-- The code's actual per-fixture rejection condition (the amended form
of claim C4's fixture clause): as the claim states it, except that an
explicitly negative `fixture-channels` value is treated as unset and
defaults to the type's minimum, so only values in `[0, minimum)` are
rejected. -/
def code_invalid_fixture (xf : FixtureXml) : Bool :=
  (xf.startAddress.getD 0 < 1) ||
  (xf.fixtureCount.getD (-1) < 1) ||
  (xf.type.getD "").isEmpty ||
  (parseType (xf.type.getD "")).isNone ||
  (match parseType (xf.type.getD ""), xf.fixtureChannels with
   | some t, some v => 0 ≤ v && v < (minChannels t : Int)
   | _, _ => false)

/-- The consumer-level rejection condition of the amended claim C4:
refresh rate `< 1`, some fixture invalid per `code_invalid_fixture`, or
some sender host that does not resolve. -/
def config_rejected (resolve : String → Bool) (tree : ConfigXml) : Bool :=
  (tree.refreshRate.getD 10 < 1) ||
  (tree.senders.any fun s => s.fixtures.any code_invalid_fixture) ||
  (tree.senders.any fun s => !resolve s.host)

/-- The 18 header bytes assembled by `send_dmx_data`
(artnet_consumer.cpp:223-229), as a function of universe and length. -/
def artnet_header (uni len : Nat) : List Nat :=
  [65, 114, 116, 45, 78, 101, 116, 0, 0, 80, 0, 14, 0, 0,
   uni &&& 255, (uni >>> 8) &&& 255, (len >>> 8) &&& 255, len &&& 255]

lemma getD_range_map {α : Type} (f : Nat → α) (d : α) {n i : Nat} (h : i < n) :
    ((List.range n).map f).getD i d = f i := by
  simp [List.getD_eq_getElem?_getD, List.getElem?_map, List.getElem?_range h]

lemma artnet_header_length (uni len : Nat) : (artnet_header uni len).length = 18 := rfl

lemma send_dmx_data_eq (uni len : Nat) (data : List Nat) :
    send_dmx_data uni data len =
      artnet_header uni len ++
        ((List.range 512).map fun j => if j < len then data.getD j 0 else 0) := by
  simp only [send_dmx_data, artnet_header]
  rw [List.range_add, List.map_append, List.map_map]
  rfl

lemma dmx_data_length (fixtures : List computed_fixture) (fr : Frame) :
    (dmx_data fixtures fr).length = 512 := by
  simp [dmx_data]

/-- C1: for every ComputedSender with universe number `u` and every
512-byte universe buffer, the transmitted packet is exactly 530 bytes:
bytes 0-7 are ASCII `"Art-Net"` plus a zero byte, bytes 8-13 are
`0x00 0x50 0x00 0x0E 0x00 0x00` (OpCode 0x5000 low-byte first, protocol
version 14 high-byte first, sequence, physical), byte 14 is `u & 0xFF`,
byte 15 is `(u >> 8) & 0xFF`, bytes 16-17 are `0x02 0x00` (data length
512 high-byte first), and bytes 18-529 are the universe buffer verbatim;
this holds for any fixture list, including the empty one. -/
theorem c1_packet_layout (s : computed_sender) (fr : Frame) :
    (send_computed_sender s fr).length = 530 ∧
    (send_computed_sender s fr).take 18 =
      [65, 114, 116, 45, 78, 101, 116, 0, 0, 80, 0, 14, 0, 0,
       s.universeId &&& 255, (s.universeId >>> 8) &&& 255, 2, 0] ∧
    (send_computed_sender s fr).drop 18 = dmx_data s.fixtures fr ∧
    (dmx_data s.fixtures fr).length = 512 := by
  unfold send_computed_sender
  rw [send_dmx_data_eq]
  refine ⟨?_, ?_, ?_, dmx_data_length s.fixtures fr⟩
  · simp [artnet_header]
  · rw [List.take_left' (artnet_header_length _ _)]
    rfl
  · rw [List.drop_left' (artnet_header_length _ _)]
    have h : ∀ j ∈ List.range 512,
        (if j < 512 then (dmx_data s.fixtures fr).getD j 0 else 0) =
          universe_buffer s.fixtures fr j := by
      intro j hj
      rw [List.mem_range] at hj
      rw [if_pos hj]
      exact getD_range_map _ 0 hj
    rw [List.map_congr_left h]
    rfl

lemma dimmer_byte_eq_div (r g b : Nat) :
    dimmer_byte r g b = (279 * r + 547 * g + 106 * b) / 1000 := by
  unfold dimmer_byte
  have h : (0.279 * (r : ℚ) + 0.547 * (g : ℚ) + 0.106 * (b : ℚ))
      = ((279 * r + 547 * g + 106 * b : ℕ) : ℚ) / 1000 := by
    push_cast
    norm_num
    ring
  rw [h]
  exact_mod_cast Nat.floor_div_nat ((279 * r + 547 * g + 106 * b : ℕ) : ℚ) 1000

/-- C2: a fixture spec with configured start address `s ≥ 1`, instance
count `n ≥ 1` and channel stride `c` expands to exactly `n` computed
fixtures whose zero-based channel addresses are `(s - 1) + i * c` for
`i = 0 .. n-1`, in order (so `start-address = 1` compiles to internal
address `0`); and compiling the same configuration twice yields identical
computed-sender lists. -/
theorem c2_geometry_compiler (t : FixtureType) (s n c : Nat) (b : box)
    (_hs : 1 ≤ s) (_hn : 1 ≤ n) :
    (fixtureInstances ⟨t, s - 1, n, c, b⟩).length = n ∧
    (∀ i, i < n →
      ((fixtureInstances ⟨t, s - 1, n, c, b⟩).getD i default).address = (s - 1) + i * c) ∧
    (∀ (resolve : String → Bool) (ss : List sender),
      compute_senders resolve ss = compute_senders resolve ss) := by
  refine ⟨by simp [fixtureInstances], ?_, fun _ _ => rfl⟩
  intro i hi
  unfold fixtureInstances
  rw [getD_range_map _ _ hi]

/-- C3: the RGBW encoder outputs exactly `(r - w, g - w, b - w, w)` with
`w = min(r, g, b)`; the outputs satisfy `r' + w = r`, `g' + w = g`,
`b' + w = b` exactly, and every output is again a byte, so the unsigned
8-bit subtraction in the source neither underflows nor overflows. -/
theorem c3_rgbw_encoder (r g b : Nat) (hr : r < 256) (hg : g < 256) (hb : b < 256) :
    encode FixtureType.RGBW ⟨r, g, b⟩ =
      [r - min (min r g) b, g - min (min r g) b, b - min (min r g) b, min (min r g) b] ∧
    (r - min (min r g) b) + min (min r g) b = r ∧
    (g - min (min r g) b) + min (min r g) b = g ∧
    (b - min (min r g) b) + min (min r g) b = b ∧
    r - min (min r g) b < 256 ∧ g - min (min r g) b < 256 ∧
    b - min (min r g) b < 256 ∧ min (min r g) b < 256 := by
  have h1 : min (min r g) b ≤ r := le_trans (min_le_left _ _) (min_le_left _ _)
  have h2 : min (min r g) b ≤ g := le_trans (min_le_left _ _) (min_le_right _ _)
  have h3 : min (min r g) b ≤ b := min_le_right _ _
  exact ⟨rfl, by omega, by omega, by omega, by omega, by omega, by omega, by omega⟩

/-- C3 witness: the RGBW encoder at the concrete color (200, 100, 50). -/
theorem c3_rgbw_encoder_witness :
    encode FixtureType.RGBW ⟨200, 100, 50⟩ =
      [200 - min (min 200 100) 50, 100 - min (min 200 100) 50,
       50 - min (min 200 100) 50, min (min 200 100) 50] ∧
    (200 - min (min 200 100) 50) + min (min 200 100) 50 = 200 ∧
    (100 - min (min 200 100) 50) + min (min 200 100) 50 = 100 ∧
    (50 - min (min 200 100) 50) + min (min 200 100) 50 = 50 ∧
    200 - min (min 200 100) 50 < 256 ∧ 100 - min (min 200 100) 50 < 256 ∧
    50 - min (min 200 100) 50 < 256 ∧ min (min 200 100) 50 < 256 :=
  c3_rgbw_encoder 200 100 50 (by decide) (by decide) (by decide)

/-- C2 witness: an RGB fixture with configured start address 1, two
instances and stride 4 compiles to two fixtures at internal addresses 0
and 4. -/
theorem c2_geometry_compiler_witness :
    (fixtureInstances ⟨FixtureType.RGB, 1 - 1, 2, 4, default⟩).length = 2 ∧
    (∀ i, i < 2 →
      ((fixtureInstances ⟨FixtureType.RGB, 1 - 1, 2, 4, default⟩).getD i default).address
        = (1 - 1) + i * 4) ∧
    (∀ (resolve : String → Bool) (ss : List sender),
      compute_senders resolve ss = compute_senders resolve ss) :=
  c2_geometry_compiler FixtureType.RGB 1 2 4 default (by decide) (by decide)

/-- C10 (implicit): the dimmer encoding never exceeds 237 for byte
inputs, full white (255, 255, 255) encodes to exactly 237, and so the
dimmer full-scale value 255 is unreachable. -/
theorem c10_dimmer_ceiling (r g b : Nat) (hr : r < 256) (hg : g < 256) (hb : b < 256) :
    dimmer_byte r g b ≤ 237 ∧ dimmer_byte 255 255 255 = 237 ∧
    dimmer_byte r g b < 255 := by
  have hmax : dimmer_byte r g b ≤ 237 := by
    rw [dimmer_byte_eq_div]
    have h : 279 * r + 547 * g + 106 * b ≤ 237660 := by omega
    calc (279 * r + 547 * g + 106 * b) / 1000 ≤ 237660 / 1000 := Nat.div_le_div_right h
      _ = 237 := by norm_num
  refine ⟨hmax, ?_, by omega⟩
  rw [dimmer_byte_eq_div]

/-- C10 witness: the dimmer ceiling at full white. -/
theorem c10_dimmer_ceiling_witness :
    dimmer_byte 255 255 255 ≤ 237 ∧ dimmer_byte 255 255 255 = 237 ∧
    dimmer_byte 255 255 255 < 255 :=
  c10_dimmer_ceiling 255 255 255 (by decide) (by decide) (by decide)

/-- C8: at the input (r, g, b) = (19, 251, 117) the exact value of
`0.279 * r + 0.547 * g + 0.106 * b` is the integer 155 (the weighted sum
`279 * 19 + 547 * 251 + 106 * 117` is exactly 155000), so the claimed
floor semantics yield 155 there — while the source's IEEE-double
evaluation of the same expression yields 154.99999999999997, which the
`uint8_t` cast truncates to 154. -/
theorem c8_dimmer_floor_at_failing_input :
    dimmer_byte 19 251 117 = 155 ∧ 279 * 19 + 547 * 251 + 106 * 117 = 155000 := by
  constructor
  · rw [dimmer_byte_eq_div]
  · norm_num

/-- C6: the frame mailbox is a latest-wins single slot: after any finite
sequence of deliveries starting from the empty mailbox, the pacing read
observes exactly the last-delivered frame (none if no frame was ever
delivered) — earlier frames are dropped, not queued — and every `send`
returns a future that immediately resolves to `true`. -/
theorem c6_mailbox_latest_wins (frames : List Frame) (fr : Frame) (m : Mailbox) :
    mailbox_read (deliver_all frames (none : Mailbox)) = frames.getLast? ∧
    (mailbox_send fr m).2 = true := by
  refine ⟨?_, rfl⟩
  have key : ∀ (fs : List Frame) (m0 : Mailbox),
      deliver_all fs m0 = match fs.getLast? with | none => m0 | some f => some f := by
    intro fs
    induction fs with
    | nil => intro m0; rfl
    | cons f fs2 ih =>
      intro m0
      cases fs2 with
      | nil => rfl
      | cons f2 fs3 =>
        have step : deliver_all (f :: f2 :: fs3) m0 = deliver_all (f2 :: fs3) (some f) := rfl
        rw [step, ih (some f), List.getLast?_cons_cons]
        cases h : (f2 :: fs3).getLast? with
        | none => simp at h
        | some x => rfl
  rw [key frames none]
  cases h : frames.getLast? <;> rfl

lemma send_computed_senders_attempts (net : endpoint → Bool) (ss : List computed_sender) :
    (send_computed_senders net ss).1 =
      (ss.take (ss.findIdx (fun s => !net s.endpoint) + 1)).map computed_sender.endpoint := by
  induction ss with
  | nil => rfl
  | cons s rest ih =>
    rw [List.findIdx_cons]
    cases h : net s.endpoint with
    | true =>
      have step : send_computed_senders net (s :: rest) =
          (s.endpoint :: (send_computed_senders net rest).1,
           (send_computed_senders net rest).2) := by
        simp [send_computed_senders, h]
      rw [step]
      simp only [h, Bool.not_true, cond_false]
      rw [List.take_cons (Nat.succ_pos _), List.map_cons, ih, Nat.succ_sub_one]
    | false =>
      have step : send_computed_senders net (s :: rest) =
          ([s.endpoint], Except.error "io_error") := by
        simp [send_computed_senders, h]
      rw [step]
      simp only [h, Bool.not_false, cond_true]
      rfl

/-- C5 counterexample: two destinations, the first of which fails at the
transport; within that iteration a transport error is raised for the
first destination and the send to the second destination is NOT attempted
— refuting the claim that sends are attempted independently per sender
within an iteration. -/
theorem c5_counterexample :
    (send_computed_senders (fun e => e.host == "192.168.0.2")
        [⟨⟨"192.168.0.1", 6454⟩, 0, []⟩, ⟨⟨"192.168.0.2", 6454⟩, 0, []⟩]).2 =
      Except.error "io_error" ∧
    (⟨"192.168.0.2", 6454⟩ : endpoint) ∉
      (send_computed_senders (fun e => e.host == "192.168.0.2")
        [⟨⟨"192.168.0.1", 6454⟩, 0, []⟩, ⟨⟨"192.168.0.2", 6454⟩, 0, []⟩]).1 := by
  constructor
  · rfl
  · decide

/-- C5 (amended): a transport error raised while sending to one
destination aborts the remaining sends of that same iteration — the
exception is only caught at the per-iteration boundary — but it does not
terminate the pacing loop: every one of the `n` following iterations
still runs, and each iteration attempts the destinations in order up to
and including the first failing one (all of them when none fails). -/
theorem c5_iteration_error_behavior (net : endpoint → Bool)
    (ss : List computed_sender) (n : Nat) :
    run_loop net ss n =
      List.replicate n
        ((ss.take (ss.findIdx (fun s => !net s.endpoint) + 1)).map computed_sender.endpoint) := by
  induction n with
  | zero => rfl
  | succ k ih =>
    rw [run_loop, ih, List.replicate_succ]
    congr 1
    exact send_computed_senders_attempts net ss

lemma encode_length (t : FixtureType) (c : color) : (encode t c).length = minChannels t := by
  cases t <;> rfl

lemma foldl_write_unwritten (fr : Frame) (i : Nat) (fixtures : List computed_fixture)
    (h : ∀ cf ∈ fixtures, ¬(cf.address ≤ i ∧ i < cf.address + minChannels cf.type)) :
    ∀ buf : Nat → Nat,
      (fixtures.foldl
        (fun b cf => writeBytes b cf.address (encode cf.type (average_color fr cf.rectangle)))
        buf) i = buf i := by
  induction fixtures with
  | nil => intro buf; rfl
  | cons cf rest ih =>
    intro buf
    rw [List.foldl_cons]
    rw [ih (fun c hc => h c (List.mem_cons_of_mem _ hc))]
    have hcf := h cf (List.mem_cons_self _ _)
    unfold writeBytes
    rw [if_neg]
    intro hcond
    apply hcf
    refine ⟨hcond.1, ?_⟩
    have h2 := hcond.2
    rw [encode_length] at h2
    omega

/-- C7: for every destination and every send cycle, the universe buffer
starts from all zeros (the `memset`), so any channel slot not written by
some computed fixture of that destination is zero in the emitted packet:
byte `18 + i` of the packet is `0` whenever slot `i < 512` is outside
every fixture's written range. -/
theorem c7_unwritten_slots_zero (s : computed_sender) (fr : Frame) (i : Nat)
    (hi : i < 512)
    (h : ∀ cf ∈ s.fixtures, ¬(cf.address ≤ i ∧ i < cf.address + minChannels cf.type)) :
    (send_computed_sender s fr).getD (18 + i) 0 = 0 := by
  have hbyte : (send_computed_sender s fr).getD (18 + i) 0 = universe_buffer s.fixtures fr i := by
    unfold send_computed_sender
    rw [send_dmx_data_eq]
    have hlen : (artnet_header s.universeId 512).length ≤ 18 + i := by
      rw [artnet_header_length]; omega
    rw [List.getD_eq_getElem?_getD, List.getElem?_append_right hlen, ← List.getD_eq_getElem?_getD]
    rw [artnet_header_length, Nat.add_sub_cancel_left]
    rw [getD_range_map _ 0 hi, if_pos hi]
    exact getD_range_map _ 0 hi
  rw [hbyte]
  exact foldl_write_unwritten fr i s.fixtures h _

/-- C7 witness: a destination with a single RGB fixture at address 0
leaves slot 100 of the packet zero. -/
theorem c7_unwritten_slots_zero_witness :
    (send_computed_sender ⟨⟨"127.0.0.1", 6454⟩, 0, [⟨FixtureType.RGB, 0, ⟨default, 0, 1⟩⟩]⟩
        (fun _ => ⟨0, 0, 0⟩)).getD (18 + 100) 0 = 0 :=
  c7_unwritten_slots_zero ⟨⟨"127.0.0.1", 6454⟩, 0, [⟨FixtureType.RGB, 0, ⟨default, 0, 1⟩⟩]⟩
    (fun _ => ⟨0, 0, 0⟩) 100 (by decide) (by decide)

lemma mapM_isOk {α β : Type} (f : α → Except String β) (xs : List α) :
    (xs.mapM f).isOk = xs.all fun x => (f x).isOk := by
  induction xs with
  | nil => rfl
  | cons x rest ih =>
    rw [List.mapM_cons, List.all_cons, ← ih]
    cases hx : f x with
    | error e => simp [hx, Except.bind, Except.isOk, Except.toBool, Bind.bind]
    | ok y =>
      cases hr : rest.mapM f with
      | error e => simp [hx, hr, Except.bind, Except.isOk, Except.toBool, Bind.bind]
      | ok ys =>
        simp [hx, hr, Except.bind, Except.isOk, Except.toBool, Bind.bind, pure, Except.pure]

lemma mapM_ok_length {α β : Type} (f : α → Except String β) :
    ∀ (xs : List α) (ys : List β), xs.mapM f = Except.ok ys → ys.length = xs.length := by
  intro xs
  induction xs with
  | nil =>
    intro ys h
    simp [List.mapM, List.mapM.loop, pure, Except.pure] at h
    simp [← h]
  | cons x rest ih =>
    intro ys h
    rw [List.mapM_cons] at h
    cases hx : f x with
    | error e => rw [hx] at h; simp [Except.bind, Bind.bind] at h
    | ok y =>
      rw [hx] at h
      cases hr : rest.mapM f with
      | error e => rw [hr] at h; simp [Except.bind, Bind.bind] at h
      | ok ys2 =>
        rw [hr] at h
        simp [Except.bind, Bind.bind, pure, Except.pure] at h
        rw [← h]
        simp [ih ys2 hr]

lemma mapM_ok_cons {α β : Type} (f : α → Except String β) (x : α) (rest : List α) (ys : List β)
    (h : (x :: rest).mapM f = Except.ok ys) :
    ∃ y ys2, f x = Except.ok y ∧ rest.mapM f = Except.ok ys2 ∧ ys = y :: ys2 := by
  rw [List.mapM_cons] at h
  cases hx : f x with
  | error e => rw [hx] at h; simp [Except.bind, Bind.bind] at h
  | ok y =>
    rw [hx] at h
    cases hr : rest.mapM f with
    | error e => rw [hr] at h; simp [Except.bind, Bind.bind] at h
    | ok ys2 =>
      rw [hr] at h
      simp [Except.bind, Bind.bind, pure, Except.pure] at h
      exact ⟨y, ys2, rfl, rfl, h.symm⟩

lemma parseFixture_isOk (xf : FixtureXml) :
    (parseFixture xf).isOk = !code_invalid_fixture xf := by
  unfold parseFixture code_invalid_fixture
  by_cases h1 : xf.startAddress.getD 0 < 1
  · simp [h1, Except.isOk, Except.toBool]
  · by_cases h2 : xf.fixtureCount.getD (-1) < 1
    · simp [h1, h2, Except.isOk, Except.toBool]
    · by_cases h3 : (xf.type.getD "").isEmpty
      · simp [h1, h2, h3, Except.isOk, Except.toBool]
      · cases h4 : parseType (xf.type.getD "") with
        | none => simp [h1, h2, h3, h4, Except.isOk, Except.toBool]
        | some t =>
          cases h5 : xf.fixtureChannels with
          | none => simp [h1, h2, h3, h4, h5, Except.isOk, Except.toBool]
          | some v =>
            by_cases h6 : v < 0
            · have h7 : ¬(0 ≤ v) := by omega
              simp [h1, h2, h3, h4, h5, h6, h7, Except.isOk, Except.toBool]
            · have h7 : (0 : Int) ≤ v := by omega
              by_cases h8 : v < (minChannels t : Int)
              · simp [h1, h2, h3, h4, h5, h6, h7, h8, Except.isOk, Except.toBool]
              · simp [h1, h2, h3, h4, h5, h6, h7, h8, Except.isOk, Except.toBool]

lemma get_fixtures_isOk (xs : List FixtureXml) :
    (get_fixtures_ptree xs).isOk = xs.all fun x => !code_invalid_fixture x := by
  unfold get_fixtures_ptree
  rw [mapM_isOk]
  simp only [parseFixture_isOk]

lemma parseSender_isOk (x : SenderXml) :
    (parseSender x).isOk = x.fixtures.all fun f => !code_invalid_fixture f := by
  unfold parseSender
  rw [← get_fixtures_isOk]
  cases h : get_fixtures_ptree x.fixtures <;> simp [h, Except.map, Except.isOk, Except.toBool]

lemma get_senders_isOk (xs : List SenderXml) :
    (get_senders_ptree xs).isOk =
      xs.all fun x => x.fixtures.all fun f => !code_invalid_fixture f := by
  unfold get_senders_ptree
  rw [mapM_isOk]
  simp only [parseSender_isOk]

lemma parseSender_ok_host {x : SenderXml} {s : sender}
    (h : parseSender x = Except.ok s) : s.host = x.host := by
  unfold parseSender at h
  cases h2 : get_fixtures_ptree x.fixtures with
  | error e => rw [h2] at h; simp [Except.map] at h
  | ok fs =>
    rw [h2] at h
    simp [Except.map] at h
    rw [← h]

lemma get_senders_hosts :
    ∀ (xs : List SenderXml) (ss : List sender),
      get_senders_ptree xs = Except.ok ss → ss.map sender.host = xs.map SenderXml.host := by
  intro xs
  induction xs with
  | nil =>
    intro ss h
    unfold get_senders_ptree at h
    simp [List.mapM, List.mapM.loop, pure, Except.pure] at h
    simp [← h]
  | cons x rest ih =>
    intro ss h
    unfold get_senders_ptree at h
    obtain ⟨s, ss2, hx, hr, rfl⟩ := mapM_ok_cons _ _ _ _ h
    simp only [List.map_cons]
    rw [parseSender_ok_host hx, ih ss2 hr]

lemma compute_senders_isOk (resolve : String → Bool) (ss : List sender) :
    (compute_senders resolve ss).isOk = ss.all fun s => resolve s.host := by
  unfold compute_senders
  rw [mapM_isOk]
  induction ss with
  | nil => rfl
  | cons s rest ih =>
    rw [List.all_cons, List.all_cons, ih]
    cases h : resolve s.host <;> simp [h, Except.isOk, Except.toBool]

lemma all_map_eq {α β : Type} (l : List α) (f : α → β) (p : β → Bool) :
    (l.map f).all p = l.all fun x => p (f x) := by
  induction l with
  | nil => rfl
  | cons x r ih => simp [List.all_cons, ih]

lemma all_not_eq_not_any {α : Type} (p : α → Bool) (xs : List α) :
    (xs.all fun x => !p x) = !(xs.any p) := by
  induction xs with
  | nil => rfl
  | cons x r ih => simp [List.all_cons, List.any_cons, ih, Bool.not_or]

lemma senders_all_not (xs : List SenderXml) :
    (xs.all fun x => x.fixtures.all fun f => !code_invalid_fixture f) =
      !(xs.any fun x => x.fixtures.any code_invalid_fixture) := by
  induction xs with
  | nil => rfl
  | cons x r ih =>
    simp [List.all_cons, List.any_cons, ih, Bool.not_or, all_not_eq_not_any]

/-- C4 counterexample: a fixture whose `fixture-channels` value is `-5` —
strictly below the RGB minimum of 3, so the claim says construction must
fail — yet construction succeeds, because the code treats any negative
`fixture-channels` as unset and silently defaults it to the minimum. -/
theorem c4_counterexample :
    spec_invalid_fixture ⟨some 1, some 1, some "RGB", some (-5),
      none, none, none, none, none⟩ = true ∧
    (create_preconfigured_consumer (fun _ => true)
        ⟨some 10, [⟨0, "127.0.0.1", 6454,
          [⟨some 1, some 1, some "RGB", some (-5), none, none, none, none, none⟩]⟩]⟩).isOk
      = true := by
  constructor
  · decide
  · decide

/-- C4 (amended): construction fails with a configuration error exactly
when `refresh-rate < 1`, some fixture has a missing or `< 1` start
address, a missing or `< 1` count, a missing or unknown type, or an
explicit `fixture-channels` value in `[0, minimum)` — an explicitly
negative `fixture-channels` is treated as unset and defaults to the
type's minimum — or some sender host does not parse as an address;
otherwise construction succeeds.  (No consumer value exists on the error
path, and the pacing thread is only started by the separate
`initialize` call, never during construction.) -/
theorem c4_construction_rejection (resolve : String → Bool) (tree : ConfigXml) :
    (create_preconfigured_consumer resolve tree).isOk = !config_rejected resolve tree := by
  unfold create_preconfigured_consumer config_rejected
  by_cases h0 : tree.refreshRate.getD 10 < 1
  · simp [h0, Except.isOk, Except.toBool]
  · rw [if_neg h0]
    cases hs : get_senders_ptree tree.senders with
    | error e =>
      have hAll := get_senders_isOk tree.senders
      rw [hs, senders_all_not] at hAll
      have hAny : (tree.senders.any fun x => x.fixtures.any code_invalid_fixture) = true := by
        cases hb : tree.senders.any fun x => x.fixtures.any code_invalid_fixture
        · rw [hb] at hAll; simp [Except.isOk, Except.toBool] at hAll
        · rfl
      simp [Except.bind, Bind.bind, Except.isOk, Except.toBool, h0, hAny]
    | ok ss =>
      have hAll := get_senders_isOk tree.senders
      rw [hs, senders_all_not] at hAll
      have hAny : (tree.senders.any fun x => x.fixtures.any code_invalid_fixture) = false := by
        cases hb : tree.senders.any fun x => x.fixtures.any code_invalid_fixture
        · rfl
        · rw [hb] at hAll; simp [Except.isOk, Except.toBool] at hAll
      have hosts := get_senders_hosts tree.senders ss hs
      have h2 : (compute_senders resolve ss).isOk = tree.senders.all fun x => resolve x.host := by
        rw [compute_senders_isOk]
        calc ss.all (fun s => resolve s.host)
            = (ss.map sender.host).all resolve := (all_map_eq ss sender.host resolve).symm
          _ = (tree.senders.map SenderXml.host).all resolve := by rw [hosts]
          _ = tree.senders.all fun x => resolve x.host :=
              all_map_eq tree.senders SenderXml.host resolve
      have h3 : (tree.senders.all fun x => resolve x.host) =
          !(tree.senders.any fun x => !resolve x.host) := by
        rw [← all_not_eq_not_any]
        simp
      simp only [Except.bind, Bind.bind]
      cases hc : compute_senders resolve ss with
      | error e2 =>
        rw [hc] at h2
        simp only [Except.isOk, Except.toBool] at h2
        have h4 : (tree.senders.any fun x => !resolve x.host) = true := by
          rw [h3] at h2
          cases hb : tree.senders.any fun x => !resolve x.host
          · rw [hb] at h2; simp at h2
          · rfl
        simp [Except.map, Except.isOk, Except.toBool, h0, hAny, h4]
      | ok cs =>
        rw [hc] at h2
        simp only [Except.isOk, Except.toBool] at h2
        have h4 : (tree.senders.any fun x => !resolve x.host) = false := by
          rw [h3] at h2
          cases hb : tree.senders.any fun x => !resolve x.host
          · rfl
          · rw [hb] at h2; simp at h2
        simp [Except.map, Except.isOk, Except.toBool, h0, hAny, h4]

/-- C9 counterexample: a configuration with one sender holding one
fixture spec of count 5 constructs a consumer whose computed-fixture
count is 5, yet no value in the `state()` snapshot equals 5 — `state()`
reports the computed-sender count (here 1) under
`artnet/computed-senders`, not the computed-fixture count. -/
theorem c9_counterexample :
    (match create_preconfigured_consumer (fun _ => true)
        ⟨some 10, [⟨0, "127.0.0.1", 6454,
          [⟨some 1, some 5, some "RGB", none, none, none, none, none, none⟩]⟩]⟩ with
     | Except.ok c =>
       (total_computed_fixtures c == 5) && ((state c).all fun kv => kv.2 != 5)
     | Except.error _ => false) = true := by
  decide

/-- C9 (amended): the `state()` snapshot reports, under the keys
`artnet/computed-senders`, `artnet/senders` and `artnet/refresh-rate`,
the computed-sender count, the sender count and the configured refresh
rate — and for every successfully constructed consumer the
computed-sender count equals the sender count (one computed sender per
configured sender); the computed-fixture count is not reported. -/
theorem c9_state_reports (resolve : String → Bool) (tree : ConfigXml) (c : consumer)
    (h : create_preconfigured_consumer resolve tree = Except.ok c) :
    state c = [("artnet/computed-senders", (c.computed_senders.length : Int)),
               ("artnet/senders", (c.config.senders.length : Int)),
               ("artnet/refresh-rate", c.config.refreshRate)] ∧
    c.computed_senders.length = c.config.senders.length := by
  refine ⟨rfl, ?_⟩
  unfold create_preconfigured_consumer at h
  by_cases h0 : tree.refreshRate.getD 10 < 1
  · rw [if_pos h0] at h
    exact absurd h (by simp)
  · rw [if_neg h0] at h
    cases hs : get_senders_ptree tree.senders with
    | error e => rw [hs] at h; simp [Except.bind, Bind.bind] at h
    | ok ss =>
      rw [hs] at h
      simp only [Except.bind, Bind.bind] at h
      cases hc : compute_senders resolve ss with
      | error e => rw [hc] at h; simp [Except.bind, Bind.bind, Except.map] at h
      | ok cs =>
        rw [hc] at h
        simp only [Except.bind, Bind.bind, Except.map, Except.ok.injEq] at h
        unfold compute_senders at hc
        have hl := mapM_ok_length _ ss cs hc
        rw [← h]
        simpa using hl

/-- A small well-formed configuration tree: one sender, one RGB fixture
of count 1, used to witness the `state()` theorem. -/
def c9_example_tree : ConfigXml :=
  ⟨some 10, [⟨0, "127.0.0.1", 6454,
    [⟨some 1, some 1, some "RGB", none, none, none, none, none, none⟩]⟩]⟩

/-- The consumer that construction yields on `c9_example_tree`. -/
def c9_example_consumer : consumer :=
  ⟨⟨10, [⟨0, "127.0.0.1", 6454, [⟨FixtureType.RGB, 0, 1, 3, ⟨0, 0, 0, 0, 0⟩⟩]⟩]⟩,
   [⟨⟨"127.0.0.1", 6454⟩, 0, [⟨FixtureType.RGB, 0, ⟨⟨0, 0, 0, 0, 0⟩, 0, 1⟩⟩]⟩]⟩

/-- C9 witness: the `state()` contents at the concrete consumer built
from `c9_example_tree`. -/
theorem c9_state_reports_witness :
    state c9_example_consumer =
      [("artnet/computed-senders", (c9_example_consumer.computed_senders.length : Int)),
       ("artnet/senders", (c9_example_consumer.config.senders.length : Int)),
       ("artnet/refresh-rate", c9_example_consumer.config.refreshRate)] ∧
    c9_example_consumer.computed_senders.length =
      c9_example_consumer.config.senders.length :=
  c9_state_reports (fun _ => true) c9_example_tree c9_example_consumer rfl

end Artnet
